import Mathlib

/-!
Verification of the VKMS pixel-format conversion and row-composition engine
(drivers/gpu/drm/vkms/vkms_formats.c).

Machine integers are modelled as Nat/Int with explicit wrapping where the C
code narrows: `store16`/`store8` model assignment to a u16/u8 lvalue, `byt`
models a u8 load from mapped memory.  The `drm_fixed.h` fixed-point helpers
and a few kernel macros are not part of the provided sources and are
modelled from the spec (each such definition says so in its doc comment);
everything else is translated from vkms_formats.c.
-/

/-- Pointwise update of a function, modelling a store through a pointer. -/
def upd {α β : Type} [DecidableEq α] (f : α → β) (a : α) (v : β) : α → β :=
  fun a' => if a' = a then v else f a'

/-- Load of a u8 from mapped memory: the raw cell value reduced to a byte. -/
def byt (mem : Int → Nat) (a : Int) : Nat := mem a % 256

/-- Assignment of an int to a u16 lvalue (C conversion: value mod 2^16). -/
def store16 (v : Int) : Nat := (v % 65536).toNat

/-- Assignment of an int to a u8 lvalue (C conversion: value mod 2^8). -/
def store8i (v : Int) : Nat := (v % 256).toNat

/-- Modelled from the spec (4.5): the kernel macro DIV_ROUND_CLOSEST for
non-negative operands, `(x + divisor/2) / divisor`; linux/math.h is not
among the provided sources. -/
def div_round_closest (x d : Nat) : Nat := (x + d / 2) / d

/-- Modelled from the spec (4.4): the kernel `clamp(val, lo, hi)` macro,
`min(max(val, lo), hi)`; linux/minmax.h is not among the provided sources. -/
def clampI (v lo hi : Int) : Int := min (max v lo) hi

/-- Modelled from the spec (4.1): `to_fixed` of drm_fixed.h (not among the
provided sources), signed 32.32 fixed point. -/
def drm_int2fixp (a : Int) : Int := a * 2 ^ 32

/-- Modelled from the spec (4.1): `from_fixed`, dropping the 32 fractional
bits (the kernel uses an arithmetic right shift). -/
def drm_fixp2int (a : Int) : Int := a.fdiv (2 ^ 32)

/-- Modelled from the spec (4.1): `from_fixed_round`, round to nearest
(adding one half before dropping the fractional bits). -/
def drm_fixp2int_round (a : Int) : Int := drm_fixp2int (a + 2 ^ 31)

/-- Modelled from the spec (4.1): exact fixed-point multiply, wide enough
that the products used here do not overflow before rounding. -/
def drm_fixp_mul (a b : Int) : Int := (a * b).fdiv (2 ^ 32)

/-- Modelled from the spec (4.1): fixed-point divide (the kernel divides
with div64_s64, which truncates toward zero). -/
def drm_fixp_div (a b : Int) : Int := (a * 2 ^ 32).tdiv b

/-- Modelled from the spec (4.1): fixed point from a fraction a/b, computed
on magnitudes with the last bit rounded half-up, then signed. -/
def drm_fixp_from_fraction (a b : Int) : Int :=
  let n : Nat := a.natAbs * 2 ^ 32
  let q : Nat := n / b.natAbs + (if b.natAbs ≤ 2 * (n % b.natAbs) then 1 else 0)
  if Bool.xor (decide (a < 0)) (decide (b < 0)) then -(q : Int) else (q : Int)

/-- The normalized internal pixel: four u16 channels. -/
structure pixel_argb_u16 where
  a : Nat
  r : Nat
  g : Nat
  b : Nat
deriving DecidableEq

/-- One 8-bit YUV sample triple (struct pixel_yuv_u8). -/
structure pixel_yuv_u8 where
  y : Nat
  u : Nat
  v : Nat
deriving DecidableEq

/-- Result triple of ycbcr2rgb (the three int out-parameters). -/
structure rgb_int where
  r : Int
  g : Int
  b : Int
deriving DecidableEq

/-- The supported pixel formats (the cases of get_pixel_conversion_function). -/
inductive vkms_format where
  | ARGB8888
  | XRGB8888
  | ARGB16161616
  | XRGB16161616
  | RGB565
  | NV12
deriving DecidableEq

/-- Modelled from the spec (3, 4.2): number of planes of each format, from
the DRM core format table (drm_fourcc.c is not among the provided sources). -/
def num_planes : vkms_format → Nat
  | .ARGB8888 => 1
  | .XRGB8888 => 1
  | .ARGB16161616 => 1
  | .XRGB16161616 => 1
  | .RGB565 => 1
  | .NV12 => 2

/-- Modelled from the spec (3, 4.2): bytes per pixel of each plane, from the
DRM core format table (0 for planes the format does not have). -/
def cpp : vkms_format → Nat → Nat
  | .ARGB8888, 0 => 4
  | .XRGB8888, 0 => 4
  | .ARGB16161616, 0 => 8
  | .XRGB16161616, 0 => 8
  | .RGB565, 0 => 2
  | .NV12, 0 => 1
  | .NV12, 1 => 2
  | _, _ => 0

/-- ARGB8888_to_argb_u16: each 8-bit channel scaled by 257 (bytes are in
B,G,R,A memory order). -/
def ARGB8888_to_argb_u16 (b0 b1 b2 b3 : Nat) (_encoding _range : Nat)
    (_prev : pixel_argb_u16) : pixel_argb_u16 :=
  { a := b3 * 257, r := b2 * 257, g := b1 * 257, b := b0 * 257 }

/-- XRGB8888_to_argb_u16: alpha forced to 0xffff, colors scaled by 257. -/
def XRGB8888_to_argb_u16 (b0 b1 b2 _b3 : Nat) (_encoding _range : Nat)
    (_prev : pixel_argb_u16) : pixel_argb_u16 :=
  { a := 0xffff, r := b2 * 257, g := b1 * 257, b := b0 * 257 }

/-- ARGB16161616_to_argb_u16: four little-endian u16 channels used directly. -/
def ARGB16161616_to_argb_u16 (b0 b1 b2 b3 b4 b5 b6 b7 : Nat) (_encoding _range : Nat)
    (_prev : pixel_argb_u16) : pixel_argb_u16 :=
  { a := b6 + 256 * b7, r := b4 + 256 * b5, g := b2 + 256 * b3, b := b0 + 256 * b1 }

/-- XRGB16161616_to_argb_u16: alpha forced to 0xffff, colors used directly. -/
def XRGB16161616_to_argb_u16 (b0 b1 b2 b3 b4 b5 _b6 _b7 : Nat) (_encoding _range : Nat)
    (_prev : pixel_argb_u16) : pixel_argb_u16 :=
  { a := 0xffff, r := b4 + 256 * b5, g := b2 + 256 * b3, b := b0 + 256 * b1 }

/-- RGB565_to_argb_u16: unpack the little-endian 5-6-5 word, scale each field
through fixed point by 65535/31 (or /63) with round to nearest. -/
def RGB565_to_argb_u16 (s0 s1 : Nat) (_encoding _range : Nat)
    (_prev : pixel_argb_u16) : pixel_argb_u16 :=
  let fp_rb_factor := drm_fixp_div (drm_int2fixp 65535) (drm_int2fixp 31)
  let fp_g_factor := drm_fixp_div (drm_int2fixp 65535) (drm_int2fixp 63)
  let rgb_565 := s0 + 256 * s1
  let fp_r := drm_int2fixp (((rgb_565 >>> 11) &&& 0x1f : Nat) : Int)
  let fp_g := drm_int2fixp (((rgb_565 >>> 5) &&& 0x3f : Nat) : Int)
  let fp_b := drm_int2fixp ((rgb_565 &&& 0x1f : Nat) : Int)
  { a := 0xffff,
    r := store16 (drm_fixp2int_round (drm_fixp_mul fp_r fp_rb_factor)),
    g := store16 (drm_fixp2int_round (drm_fixp_mul fp_g fp_g_factor)),
    b := store16 (drm_fixp2int_round (drm_fixp_mul fp_b fp_rb_factor)) }

/-- The COEFF macro of yuv_u8_to_argb_u16. -/
def COEFF (v r : Int) : Int :=
  drm_fixp_div (drm_fixp_mul (drm_fixp_from_fraction v 10000) (drm_int2fixp 65535))
    (drm_int2fixp r)

/-- The bt601 (limited range) matrix. -/
def bt601 : Nat → Nat → Int
  | 0, 0 => COEFF 10000 219
  | 0, 1 => COEFF 0 224
  | 0, 2 => COEFF 14020 224
  | 1, 0 => COEFF 10000 219
  | 1, 1 => COEFF (-3441) 224
  | 1, 2 => COEFF (-7141) 224
  | 2, 0 => COEFF 10000 219
  | 2, 1 => COEFF 17720 224
  | _, _ => COEFF 0 224

/-- The bt601_full matrix. -/
def bt601_full : Nat → Nat → Int
  | 0, 0 => COEFF 10000 255
  | 0, 1 => COEFF 0 255
  | 0, 2 => COEFF 14020 255
  | 1, 0 => COEFF 10000 255
  | 1, 1 => COEFF (-3441) 255
  | 1, 2 => COEFF (-7141) 255
  | 2, 0 => COEFF 10000 255
  | 2, 1 => COEFF 17720 255
  | _, _ => COEFF 0 255

/-- The rec709 (limited range) matrix. -/
def rec709 : Nat → Nat → Int
  | 0, 0 => COEFF 10000 219
  | 0, 1 => COEFF 0 224
  | 0, 2 => COEFF 15748 224
  | 1, 0 => COEFF 10000 219
  | 1, 1 => COEFF (-1873) 224
  | 1, 2 => COEFF (-4681) 224
  | 2, 0 => COEFF 10000 219
  | 2, 1 => COEFF 18556 224
  | _, _ => COEFF 0 224

/-- The rec709_full matrix. -/
def rec709_full : Nat → Nat → Int
  | 0, 0 => COEFF 10000 255
  | 0, 1 => COEFF 0 255
  | 0, 2 => COEFF 15748 255
  | 1, 0 => COEFF 10000 255
  | 1, 1 => COEFF (-1873) 255
  | 1, 2 => COEFF (-4681) 255
  | 2, 0 => COEFF 10000 255
  | 2, 1 => COEFF 18556 255
  | _, _ => COEFF 0 255

/-- The bt2020 (limited range) matrix. -/
def bt2020 : Nat → Nat → Int
  | 0, 0 => COEFF 10000 219
  | 0, 1 => COEFF 0 224
  | 0, 2 => COEFF 14746 224
  | 1, 0 => COEFF 10000 219
  | 1, 1 => COEFF (-1646) 224
  | 1, 2 => COEFF (-5714) 224
  | 2, 0 => COEFF 10000 219
  | 2, 1 => COEFF 18814 224
  | _, _ => COEFF 0 224

/-- The bt2020_full matrix. -/
def bt2020_full : Nat → Nat → Int
  | 0, 0 => COEFF 10000 255
  | 0, 1 => COEFF 0 255
  | 0, 2 => COEFF 14746 255
  | 1, 0 => COEFF 10000 255
  | 1, 1 => COEFF (-1646) 255
  | 1, 2 => COEFF (-5714) 255
  | 2, 0 => COEFF 10000 255
  | 2, 1 => COEFF 18814 255
  | _, _ => COEFF 0 255

/-- ycbcr2rgb: subtract the offsets, apply the 3x3 fixed-point matrix, and
truncate each accumulator back to an int. -/
def ycbcr2rgb (m : Nat → Nat → Int) (y cb cr : Int) (y_offset : Int) : rgb_int :=
  let fp_y := drm_int2fixp (y - y_offset)
  let fp_cb := drm_int2fixp (cb - 128)
  let fp_cr := drm_int2fixp (cr - 128)
  let fp_r := drm_fixp_mul (m 0 0) fp_y + drm_fixp_mul (m 0 1) fp_cb +
    drm_fixp_mul (m 0 2) fp_cr
  let fp_g := drm_fixp_mul (m 1 0) fp_y + drm_fixp_mul (m 1 1) fp_cb +
    drm_fixp_mul (m 1 2) fp_cr
  let fp_b := drm_fixp_mul (m 2 0) fp_y + drm_fixp_mul (m 2 1) fp_cb +
    drm_fixp_mul (m 2 2) fp_cr
  { r := drm_fixp2int fp_r, g := drm_fixp2int fp_g, b := drm_fixp2int fp_b }

/-- yuv_u8_to_argb_u16: select the matrix by (encoding, range); unsupported
encodings leave r = g = b = 0; the result is clamped to [0, 0xffff].  The
function never assigns the alpha channel, so the output pixel keeps the
alpha that was already stored there (`prev`).  Encodings are numbered as in
enum drm_color_encoding (BT601 = 0, BT709 = 1, BT2020 = 2); range 1 is
DRM_COLOR_YCBCR_FULL_RANGE. -/
def yuv_u8_to_argb_u16 (prev : pixel_argb_u16) (yuv : pixel_yuv_u8)
    (encoding range : Nat) : pixel_argb_u16 :=
  let y_offset : Int := if range = 1 then 0 else 16
  let c : rgb_int :=
    if encoding = 0 then
      ycbcr2rgb (if range = 1 then bt601_full else bt601) yuv.y yuv.u yuv.v y_offset
    else if encoding = 1 then
      ycbcr2rgb (if range = 1 then rec709_full else rec709) yuv.y yuv.u yuv.v y_offset
    else if encoding = 2 then
      ycbcr2rgb (if range = 1 then bt2020_full else bt2020) yuv.y yuv.u yuv.v y_offset
    else
      { r := 0, g := 0, b := 0 }
  { a := prev.a,
    r := store16 (clampI c.r 0 0xffff),
    g := store16 (clampI c.g 0 0xffff),
    b := store16 (clampI c.b 0 0xffff) }

/-- NV12_to_argb_u16: one Y byte from plane 0 and the U,V pair from the
interleaved plane 1, then the YCbCr conversion. -/
def NV12_to_argb_u16 (y0 u0 v0 : Nat) (encoding range : Nat)
    (prev : pixel_argb_u16) : pixel_argb_u16 :=
  yuv_u8_to_argb_u16 prev { y := y0, u := u0, v := v0 } encoding range

/-- A drm_rect (coordinates are ints; src rectangles carry 16 fractional
bits). -/
structure drm_rect where
  x1 : Int
  y1 : Int
  x2 : Int
  y2 : Int

/-- Modelled from the spec (3): the rotation/reflection bitmask of
drm_blend.h (not among the provided sources), one Bool per flag. -/
structure rotation_flags where
  rot90 : Bool
  rot180 : Bool
  rot270 : Bool
  reflectX : Bool
  reflectY : Bool

/-- The framebuffer metadata the code reads: format, per-plane byte offsets
and row pitches. -/
structure drm_framebuffer where
  format : vkms_format
  offsets : Nat → Nat
  pitches : Nat → Nat

/-- struct vkms_frame_info: framebuffer, source/destination/rotated
rectangles, rotation, and the mapped base address (map[0].vaddr). -/
structure vkms_frame_info where
  fb : drm_framebuffer
  src : drm_rect
  dst : drm_rect
  rotated : drm_rect
  rotation : rotation_flags
  vaddr : Int

/-- The two per-plane properties vkms_compose_row reads from the plane
state, plus the frame info. -/
structure vkms_plane_state where
  frame_info : vkms_frame_info
  color_encoding : Nat
  color_range : Nat

/-- pixel_offset: offsets[i] + y * pitches[i] + x * cpp[i]. -/
def pixel_offset (fi : vkms_frame_info) (x y : Int) (index : Nat) : Int :=
  (fi.fb.offsets index : Int) + y * (fi.fb.pitches index : Int) +
    x * (cpp fi.fb.format index : Int)

/-- packed_pixels_addr: the mapped base plus the pixel offset. -/
def packed_pixels_addr (fi : vkms_frame_info) (x y : Int) (index : Nat) : Int :=
  fi.vaddr + pixel_offset fi x y index

/-- get_packed_src_addr: x from the fixed-point src rectangle, y shifted by
the rotated rectangle's top. -/
def get_packed_src_addr (fi : vkms_frame_info) (y : Int) (index : Nat) : Int :=
  packed_pixels_addr fi (fi.src.x1.fdiv 65536)
    (y - fi.rotated.y1 + fi.src.y1.fdiv 65536) index

/-- get_x_position: mirrored for reflect-X or rotate-270. -/
def get_x_position (fi : vkms_frame_info) (limit x : Nat) : Nat :=
  if fi.rotation.reflectX || fi.rotation.rot270 then limit - x - 1 else x

/-- drm_rotation_90_or_270 of drm_blend.h on the modelled flags. -/
def drm_rotation_90_or_270 (r : rotation_flags) : Bool := r.rot90 || r.rot270

/-- drm_rect_width: x2 - x1. -/
def drm_rect_width (r : drm_rect) : Int := r.x2 - r.x1

/-- The row iteration limit, `min_t(size_t, drm_rect_width(dst), capacity)`:
the width passes through a cast to size_t (64-bit). -/
def row_limit (fi : vkms_frame_info) (cap : Nat) : Nat :=
  min ((drm_rect_width fi.dst) % (2 ^ 64)).toNat cap

/-- Dispatch of plane->pixel_read (get_pixel_conversion_function) at memory
level: fetch the pixel's bytes from each plane pointer and decode. -/
def pixel_read (fmt : vkms_format) (mem : Int → Nat) (addr : Nat → Int)
    (encoding range : Nat) (prev : pixel_argb_u16) : pixel_argb_u16 :=
  match fmt with
  | .ARGB8888 =>
    ARGB8888_to_argb_u16 (byt mem (addr 0)) (byt mem (addr 0 + 1))
      (byt mem (addr 0 + 2)) (byt mem (addr 0 + 3)) encoding range prev
  | .XRGB8888 =>
    XRGB8888_to_argb_u16 (byt mem (addr 0)) (byt mem (addr 0 + 1))
      (byt mem (addr 0 + 2)) (byt mem (addr 0 + 3)) encoding range prev
  | .ARGB16161616 =>
    ARGB16161616_to_argb_u16 (byt mem (addr 0)) (byt mem (addr 0 + 1))
      (byt mem (addr 0 + 2)) (byt mem (addr 0 + 3)) (byt mem (addr 0 + 4))
      (byt mem (addr 0 + 5)) (byt mem (addr 0 + 6)) (byt mem (addr 0 + 7))
      encoding range prev
  | .XRGB16161616 =>
    XRGB16161616_to_argb_u16 (byt mem (addr 0)) (byt mem (addr 0 + 1))
      (byt mem (addr 0 + 2)) (byt mem (addr 0 + 3)) (byt mem (addr 0 + 4))
      (byt mem (addr 0 + 5)) (byt mem (addr 0 + 6)) (byt mem (addr 0 + 7))
      encoding range prev
  | .RGB565 =>
    RGB565_to_argb_u16 (byt mem (addr 0)) (byt mem (addr 0 + 1)) encoding range prev
  | .NV12 =>
    NV12_to_argb_u16 (byt mem (addr 0)) (byt mem (addr 1)) (byt mem (addr 1 + 1))
      encoding range prev

/-- The loop state of vkms_compose_row: the per-plane source pointers and
the staging row being filled. -/
structure compose_state where
  src_addrs : Nat → Int
  out : Nat → pixel_argb_u16

/-- One iteration of the vkms_compose_row loop at destination x: resolve the
mirrored position, re-derive the source pointers for rotate-90/270, decode
into the staging row, then advance every plane pointer by its cpp. -/
def compose_step (mem : Int → Nat) (plane : vkms_plane_state) (y : Int)
    (limit : Nat) (s : compose_state) (x : Nat) : compose_state :=
  let fi := plane.frame_info
  let fmt := fi.fb.format
  let x_pos := get_x_position fi limit x
  let addrs : Nat → Int :=
    if drm_rotation_90_or_270 fi.rotation then
      fun i => get_packed_src_addr fi ((x : Int) + fi.rotated.y1) i +
        (cpp fmt i : Int) * y
    else
      s.src_addrs
  let out' := upd s.out x_pos
    (pixel_read fmt mem addrs plane.color_encoding plane.color_range (s.out x_pos))
  { src_addrs := fun i => addrs i + (cpp fmt i : Int), out := out' }

/-- The first k iterations of the vkms_compose_row loop. -/
def compose_loop (mem : Int → Nat) (stage : Nat → pixel_argb_u16)
    (plane : vkms_plane_state) (y : Int) (limit : Nat) (k : Nat) : compose_state :=
  (List.range k).foldl (compose_step mem plane y limit)
    { src_addrs := fun i => get_packed_src_addr plane.frame_info y i, out := stage }

/-- vkms_compose_row: run the loop over [0, limit) and return the staging
row.  `cap` is stage_buffer->n_pixels, `stage` its previous contents. -/
def vkms_compose_row (mem : Int → Nat) (cap : Nat) (stage : Nat → pixel_argb_u16)
    (plane : vkms_plane_state) (y : Int) : Nat → pixel_argb_u16 :=
  (compose_loop mem stage plane y (row_limit plane.frame_info cap)
    (row_limit plane.frame_info cap)).out

/-- argb_u16_to_yuv_u8: reduce to 8-bit RGB with round-to-nearest, then the
integer BT.601-style matrix with arithmetic shifts. -/
def argb_u16_to_yuv_u8 (p : pixel_argb_u16) : pixel_yuv_u8 :=
  let r_u8 : Int := div_round_closest p.r 257 % 256
  let g_u8 : Int := div_round_closest p.g 257 % 256
  let b_u8 : Int := div_round_closest p.b 257 % 256
  { y := store8i ((66 * r_u8 + 129 * g_u8 + 25 * b_u8 + 128).fdiv 256 + 16),
    u := store8i ((-38 * r_u8 - 74 * g_u8 + 112 * b_u8 + 128).fdiv 256 + 128),
    v := store8i ((112 * r_u8 - 94 * g_u8 - 18 * b_u8 + 128).fdiv 256 + 128) }

/-- One iteration of the argb_u16_to_NV12 loop: write the luma byte at x and
the chroma pair of x's block (offsets x/2 + x/2 and x/2 + x/2 + 1). -/
def nv12_step (src : Nat → pixel_argb_u16) (dst_y dst_uv : Int)
    (m : Int → Nat) (x : Nat) : Int → Nat :=
  let yuv := argb_u16_to_yuv_u8 (src x)
  let m1 := upd m (dst_y + (x : Int)) yuv.y
  let m2 := upd m1 (dst_uv + ((x / 2 + x / 2 : Nat) : Int)) yuv.u
  upd m2 (dst_uv + ((x / 2 + x / 2 + 1 : Nat) : Int)) yuv.v

/-- The first k iterations of the argb_u16_to_NV12 loop. -/
def nv12_loop (src : Nat → pixel_argb_u16) (dst_y dst_uv : Int)
    (m : Int → Nat) (k : Nat) : Int → Nat :=
  (List.range k).foldl (nv12_step src dst_y dst_uv) m

/-- argb_u16_to_NV12: luma row at y in plane 0, chroma row at y/2 in plane 1,
one iteration per source pixel up to the row limit. -/
def argb_u16_to_NV12 (fi : vkms_frame_info) (src : Nat → pixel_argb_u16)
    (cap : Nat) (y : Int) (m : Int → Nat) : Int → Nat :=
  let x_dst := fi.dst.x1
  let dst_y := packed_pixels_addr fi x_dst y 0
  let dst_uv := packed_pixels_addr fi x_dst (y.tdiv 2) 1
  nv12_loop src dst_y dst_uv m (row_limit fi cap)

/-- argb_u16_to_ARGB8888: reduce each channel by round-to-nearest division
by 257; returned as the four written bytes (B,G,R,A memory order). -/
def argb_u16_to_ARGB8888 (p : pixel_argb_u16) : Nat × Nat × Nat × Nat :=
  (div_round_closest p.b 257 % 256, div_round_closest p.g 257 % 256,
    div_round_closest p.r 257 % 256, div_round_closest p.a 257 % 256)

/-- argb_u16_to_XRGB8888: like ARGB8888 but the fourth byte is 0xff. -/
def argb_u16_to_XRGB8888 (p : pixel_argb_u16) : Nat × Nat × Nat × Nat :=
  (div_round_closest p.b 257 % 256, div_round_closest p.g 257 % 256,
    div_round_closest p.r 257 % 256, 0xff)

/-- argb_u16_to_RGB565: divide each channel by the fixed-point ratio with
truncation, pack 5-6-5, and return the two little-endian bytes. -/
def argb_u16_to_RGB565 (p : pixel_argb_u16) : Nat × Nat :=
  let fp_rb_factor := drm_fixp_div (drm_int2fixp 65535) (drm_int2fixp 31)
  let fp_g_factor := drm_fixp_div (drm_int2fixp 65535) (drm_int2fixp 63)
  let r := store16 (drm_fixp2int (drm_fixp_div (drm_int2fixp p.r) fp_rb_factor))
  let g := store16 (drm_fixp2int (drm_fixp_div (drm_int2fixp p.g) fp_g_factor))
  let b := store16 (drm_fixp2int (drm_fixp_div (drm_int2fixp p.b) fp_rb_factor))
  let w := (r <<< 11 ||| g <<< 5 ||| b) % 65536
  (w % 256, w / 256)

/-- Modelled from the spec (5, 7): the pr_warn_once latch of
yuv_u8_to_argb_u16 (linux/printk.h is not among the provided sources): a
process-wide set-once flag; one call returns the new flag and how many
warnings it emitted (1 only on the first unsupported encoding). -/
def yuv_warn_step (warned : Bool) (encoding : Nat) : Bool × Nat :=
  if encoding = 0 ∨ encoding = 1 ∨ encoding = 2 then (warned, 0)
  else (true, if warned then 0 else 1)

/-- Total warnings emitted by a sequence of yuv_u8_to_argb_u16 calls with
the given encodings, starting from latch state `warned`. -/
def warn_count (warned : Bool) : List Nat → Nat
  | [] => 0
  | e :: rest =>
    (yuv_warn_step warned e).2 + warn_count (yuv_warn_step warned e).1 rest

/-- A concrete NV12 frame used as a test fixture: plane 0 at offset 0,
plane 1 at offset 100, pitches 16, destination rectangle 4 pixels wide,
no rotation. -/
def fi_nv12_compose : vkms_frame_info :=
  { fb := { format := .NV12,
            offsets := fun i => if i = 0 then 0 else 100,
            pitches := fun _ => 16 },
    src := ⟨0, 0, 0, 0⟩, dst := ⟨0, 0, 4, 1⟩, rotated := ⟨0, 0, 0, 0⟩,
    rotation := ⟨false, false, false, false, false⟩, vaddr := 0 }

/-- Memory for the fixture: chroma sample 0 holds (1,2) at bytes 100..101,
chroma sample 1 holds (7,9) at bytes 102..103, luma is all zero. -/
def mem_nv12_compose : Int → Nat :=
  fun a => if a = 100 then 1 else if a = 101 then 2 else
    if a = 102 then 7 else if a = 103 then 9 else 0

/-- Plane state over the NV12 fixture, BT.601 full range. -/
def plane_nv12_compose : vkms_plane_state :=
  { frame_info := fi_nv12_compose, color_encoding := 0, color_range := 1 }

/-- A concrete NV12 destination frame for the writeback fixture: luma plane
at offset 0, chroma plane at offset 1000, 2 destination pixels. -/
def fi_nv12_write : vkms_frame_info :=
  { fb := { format := .NV12,
            offsets := fun i => if i = 0 then 0 else 1000,
            pitches := fun _ => 16 },
    src := ⟨0, 0, 0, 0⟩, dst := ⟨0, 0, 2, 1⟩, rotated := ⟨0, 0, 0, 0⟩,
    rotation := ⟨false, false, false, false, false⟩, vaddr := 0 }

/-- A two-pixel source row: pixel 0 pure red, pixel 1 pure blue. -/
def src_two_pixels : Nat → pixel_argb_u16 :=
  fun x => if x = 0 then ⟨0, 0xffff, 0, 0⟩ else ⟨0, 0, 0, 0xffff⟩

/-- An ARGB8888 frame, 2 destination pixels, reflect-X set. -/
def fi_argb_reflect : vkms_frame_info :=
  { fb := { format := .ARGB8888, offsets := fun _ => 0, pitches := fun _ => 32 },
    src := ⟨0, 0, 0, 0⟩, dst := ⟨0, 0, 2, 1⟩, rotated := ⟨0, 0, 0, 0⟩,
    rotation := ⟨false, false, false, true, false⟩, vaddr := 0 }

/-- Plane state over the reflect-X fixture. -/
def plane_argb_reflect : vkms_plane_state :=
  { frame_info := fi_argb_reflect, color_encoding := 0, color_range := 0 }

/-- An ARGB8888 frame, 2 destination pixels, identity rotation. -/
def fi_argb_plain : vkms_frame_info :=
  { fb := { format := .ARGB8888, offsets := fun _ => 0, pitches := fun _ => 32 },
    src := ⟨0, 0, 0, 0⟩, dst := ⟨0, 0, 2, 1⟩, rotated := ⟨0, 0, 0, 0⟩,
    rotation := ⟨false, false, false, false, false⟩, vaddr := 0 }

/-- Plane state over the plain ARGB8888 fixture. -/
def plane_argb_plain : vkms_plane_state :=
  { frame_info := fi_argb_plain, color_encoding := 0, color_range := 0 }

/-- Memory whose byte at address a is a mod 256 (distinct nearby bytes). -/
def mem_bytes : Int → Nat := fun a => a.toNat % 256

/-- An NV12 frame, 2 destination pixels, reflect-X set (plane 0 at offset
0, plane 1 at offset 100, pitches 16). -/
def fi_nv12_reflect : vkms_frame_info :=
  { fb := { format := .NV12,
            offsets := fun i => if i = 0 then 0 else 100,
            pitches := fun _ => 16 },
    src := ⟨0, 0, 0, 0⟩, dst := ⟨0, 0, 2, 1⟩, rotated := ⟨0, 0, 0, 0⟩,
    rotation := ⟨false, false, false, true, false⟩, vaddr := 0 }

/-- Plane state over the NV12 reflect-X fixture, BT.601 full range. -/
def plane_nv12_reflect : vkms_plane_state :=
  { frame_info := fi_nv12_reflect, color_encoding := 0, color_range := 1 }

/-- An ARGB8888 frame, 2 destination pixels, rotate-90 and reflect-X set. -/
def fi_argb_rot90 : vkms_frame_info :=
  { fb := { format := .ARGB8888, offsets := fun _ => 0, pitches := fun _ => 32 },
    src := ⟨0, 0, 0, 0⟩, dst := ⟨0, 0, 2, 1⟩, rotated := ⟨0, 0, 0, 0⟩,
    rotation := ⟨true, false, false, true, false⟩, vaddr := 0 }

/-- Plane state over the rotate-90 reflect-X fixture. -/
def plane_argb_rot90 : vkms_plane_state :=
  { frame_info := fi_argb_rot90, color_encoding := 0, color_range := 0 }

/-- An ARGB8888 frame, 2 destination pixels, rotate-270 and reflect-X set. -/
def fi_argb_rot270 : vkms_frame_info :=
  { fb := { format := .ARGB8888, offsets := fun _ => 0, pitches := fun _ => 32 },
    src := ⟨0, 0, 0, 0⟩, dst := ⟨0, 0, 2, 1⟩, rotated := ⟨0, 0, 0, 0⟩,
    rotation := ⟨false, false, true, true, false⟩, vaddr := 0 }

/-- Plane state over the rotate-270 reflect-X fixture. -/
def plane_argb_rot270 : vkms_plane_state :=
  { frame_info := fi_argb_rot270, color_encoding := 0, color_range := 0 }

/-- The matrix yuv_u8_to_argb_u16 selects for a supported (encoding, range)
pair. -/
def ycbcr_matrix (encoding range : Nat) : Nat → Nat → Int :=
  if encoding = 0 then (if range = 1 then bt601_full else bt601)
  else if encoding = 1 then (if range = 1 then rec709_full else rec709)
  else if range = 1 then bt2020_full else bt2020

theorem upd_self {α β : Type} [DecidableEq α] (f : α → β) (a : α) (v : β) :
    upd f a v a = v := by
  simp [upd]

theorem upd_ne {α β : Type} [DecidableEq α] (f : α → β) (a a' : α) (v : β)
    (h : a' ≠ a) : upd f a v a' = f a' := by
  simp [upd, h]

theorem warn_count_warned (calls : List Nat) : warn_count true calls = 0 := by
  induction calls with
  | nil => rfl
  | cons e rest ih =>
    unfold warn_count yuv_warn_step
    split <;> simpa using ih

theorem warn_count_le_one (calls : List Nat) : warn_count false calls ≤ 1 := by
  cases calls with
  | nil => simp [warn_count]
  | cons e rest =>
    unfold warn_count yuv_warn_step
    split
    · simpa using warn_count_le_one rest
    · simpa using Nat.le_of_eq (warn_count_warned rest)

theorem clampI_nonneg (w : Int) : 0 ≤ clampI w 0 0xffff :=
  le_min (le_max_right _ _) (by norm_num)

theorem clampI_le (w : Int) : clampI w 0 0xffff ≤ 0xffff :=
  min_le_right _ _

theorem store16_clampI (w : Int) :
    store16 (clampI w 0 0xffff) = (clampI w 0 0xffff).toNat := by
  have h1 := clampI_nonneg w
  have h2 := clampI_le w
  unfold store16
  rw [Int.emod_eq_of_lt h1 (by omega)]

theorem store16_clampI_le (w : Int) : store16 (clampI w 0 0xffff) ≤ 0xffff := by
  have h1 := clampI_nonneg w
  have h2 := clampI_le w
  rw [store16_clampI]
  omega

theorem yuv_prev_indep (p q : pixel_argb_u16) (yuv : pixel_yuv_u8) (e rng : Nat) :
    (yuv_u8_to_argb_u16 p yuv e rng).r = (yuv_u8_to_argb_u16 q yuv e rng).r ∧
    (yuv_u8_to_argb_u16 p yuv e rng).g = (yuv_u8_to_argb_u16 q yuv e rng).g ∧
    (yuv_u8_to_argb_u16 p yuv e rng).b = (yuv_u8_to_argb_u16 q yuv e rng).b :=
  ⟨rfl, rfl, rfl⟩

theorem ycbcr2rgb_gray (m : Nat → Nat → Int) (y off : Int)
    (h01 : m 0 0 = m 1 0) (h12 : m 1 0 = m 2 0) :
    ((ycbcr2rgb m y 128 128 off).r = (ycbcr2rgb m y 128 128 off).g ∧
      (ycbcr2rgb m y 128 128 off).g = (ycbcr2rgb m y 128 128 off).b) := by
  constructor <;>
    · simp only [ycbcr2rgb]
      norm_num [drm_fixp_mul, drm_int2fixp, h01, h12]

/-- C1 (amended): the XRGB8888, XRGB16161616 and RGB565 decoders set the
alpha channel to 0xffff for every input byte pattern, encoding and range;
the NV12 decoder, however, never assigns alpha, so the output pixel keeps
whatever alpha the staging pixel already had. -/
theorem c1_no_alpha_formats_opaque :
    ∀ (b0 b1 b2 b3 b4 b5 b6 b7 e rng : Nat) (prev : pixel_argb_u16),
      (XRGB8888_to_argb_u16 b0 b1 b2 b3 e rng prev).a = 0xffff ∧
      (XRGB16161616_to_argb_u16 b0 b1 b2 b3 b4 b5 b6 b7 e rng prev).a = 0xffff ∧
      (RGB565_to_argb_u16 b0 b1 e rng prev).a = 0xffff ∧
      (NV12_to_argb_u16 b0 b1 b2 e rng prev).a = prev.a :=
  fun _ _ _ _ _ _ _ _ _ _ _ => ⟨rfl, rfl, rfl, rfl⟩

/-- C1 counterexample: decoding an NV12 pixel into a staging slot whose
alpha is 0 leaves alpha 0, not the maximum 0xffff the claim requires. -/
theorem c1_nv12_alpha_not_opaque :
    (NV12_to_argb_u16 0 0 0 0 1 ⟨0, 0, 0, 0⟩).a ≠ 0xffff := by
  decide

/-- C5: for every encoding outside {BT601, BT709, BT2020} the conversion
yields r = g = b = 0 for every input and range, and across any sequence of
calls the (spec-modelled) pr_warn_once latch emits at most one warning. -/
theorem c5_unsupported_encoding (e : Nat) (h0 : e ≠ 0) (h1 : e ≠ 1) (h2 : e ≠ 2) :
    (∀ (yuv : pixel_yuv_u8) (rng : Nat) (prev : pixel_argb_u16),
        (yuv_u8_to_argb_u16 prev yuv e rng).r = 0 ∧
        (yuv_u8_to_argb_u16 prev yuv e rng).g = 0 ∧
        (yuv_u8_to_argb_u16 prev yuv e rng).b = 0) ∧
    (∀ calls : List Nat, warn_count false calls ≤ 1) := by
  refine ⟨fun yuv rng prev => ?_, fun calls => warn_count_le_one calls⟩
  simp only [yuv_u8_to_argb_u16, h0, h1, h2, if_false]
  refine ⟨?_, ?_, ?_⟩ <;> decide

theorem c5_unsupported_encoding_witness :
    (yuv_u8_to_argb_u16 ⟨1, 2, 3, 4⟩ ⟨10, 20, 30⟩ 7 0).r = 0 ∧
    warn_count false [7, 7, 7] ≤ 1 :=
  ⟨((c5_unsupported_encoding 7 (by decide) (by decide) (by decide)).1
      ⟨10, 20, 30⟩ 0 ⟨1, 2, 3, 4⟩).1,
    (c5_unsupported_encoding 7 (by decide) (by decide) (by decide)).2 [7, 7, 7]⟩

/-- C9 (amended): with BT.601 full range, converting white (0xff,0x80,0x80)
gives R,G,B all within 257 of 0xffff and converting red (0x4c,0x55,0xff)
gives R within 257 of 0xffff and G,B within 257 of 0; the alpha channel,
however, is never written by the conversion: it keeps the prior value of
the output pixel (the in-tree test fixtures expect alpha 0 over a zeroed
output, not the 0xffff the claim states). -/
theorem c9_bt601_full_white_red (prev : pixel_argb_u16) :
    ((yuv_u8_to_argb_u16 prev ⟨0xff, 0x80, 0x80⟩ 0 1).a = prev.a ∧
      (((yuv_u8_to_argb_u16 prev ⟨0xff, 0x80, 0x80⟩ 0 1).r : Int) - 0xffff).natAbs ≤ 257 ∧
      (((yuv_u8_to_argb_u16 prev ⟨0xff, 0x80, 0x80⟩ 0 1).g : Int) - 0xffff).natAbs ≤ 257 ∧
      (((yuv_u8_to_argb_u16 prev ⟨0xff, 0x80, 0x80⟩ 0 1).b : Int) - 0xffff).natAbs ≤ 257) ∧
    ((yuv_u8_to_argb_u16 prev ⟨0x4c, 0x55, 0xff⟩ 0 1).a = prev.a ∧
      (((yuv_u8_to_argb_u16 prev ⟨0x4c, 0x55, 0xff⟩ 0 1).r : Int) - 0xffff).natAbs ≤ 257 ∧
      (((yuv_u8_to_argb_u16 prev ⟨0x4c, 0x55, 0xff⟩ 0 1).g : Int) - 0).natAbs ≤ 257 ∧
      (((yuv_u8_to_argb_u16 prev ⟨0x4c, 0x55, 0xff⟩ 0 1).b : Int) - 0).natAbs ≤ 257) := by
  refine ⟨⟨rfl, ?_, ?_, ?_⟩, ⟨rfl, ?_, ?_, ?_⟩⟩ <;>
    first
      | (rw [(yuv_prev_indep prev ⟨0, 0, 0, 0⟩ _ _ _).1]; decide)
      | (rw [(yuv_prev_indep prev ⟨0, 0, 0, 0⟩ _ _ _).2.1]; decide)
      | (rw [(yuv_prev_indep prev ⟨0, 0, 0, 0⟩ _ _ _).2.2]; decide)

/-- C9 counterexample: with a zeroed output pixel the converted alpha is 0,
which is not within 257 of the 0xffff the claim states. -/
theorem c9_alpha_not_near_maximum :
    ¬ (((yuv_u8_to_argb_u16 ⟨0, 0, 0, 0⟩ ⟨0xff, 0x80, 0x80⟩ 0 1).a : Int) -
        0xffff).natAbs ≤ 257 := by
  decide

/-- C10: for every supported encoding, every range and every luma byte,
an input with both chroma bytes 128 produces equal R, G and B channels:
the chroma differences are zero, the chroma terms vanish, and the three
matrix rows share the same luma coefficient. -/
theorem c10_gray_axis (e rng y : Nat) (he : e < 3) (_hy : y < 256)
    (prev : pixel_argb_u16) :
    (yuv_u8_to_argb_u16 prev ⟨y, 128, 128⟩ e rng).r =
      (yuv_u8_to_argb_u16 prev ⟨y, 128, 128⟩ e rng).g ∧
    (yuv_u8_to_argb_u16 prev ⟨y, 128, 128⟩ e rng).g =
      (yuv_u8_to_argb_u16 prev ⟨y, 128, 128⟩ e rng).b := by
  interval_cases e <;> by_cases h : rng = 1 <;>
    simp only [yuv_u8_to_argb_u16, h, if_true, if_false, reduceIte] <;>
    norm_num <;>
    refine ⟨?_, ?_⟩ <;>
    first
      | rw [(ycbcr2rgb_gray bt601_full _ _ rfl rfl).1]
      | rw [(ycbcr2rgb_gray bt601_full _ _ rfl rfl).2]
      | rw [(ycbcr2rgb_gray bt601 _ _ rfl rfl).1]
      | rw [(ycbcr2rgb_gray bt601 _ _ rfl rfl).2]
      | rw [(ycbcr2rgb_gray rec709_full _ _ rfl rfl).1]
      | rw [(ycbcr2rgb_gray rec709_full _ _ rfl rfl).2]
      | rw [(ycbcr2rgb_gray rec709 _ _ rfl rfl).1]
      | rw [(ycbcr2rgb_gray rec709 _ _ rfl rfl).2]
      | rw [(ycbcr2rgb_gray bt2020_full _ _ rfl rfl).1]
      | rw [(ycbcr2rgb_gray bt2020_full _ _ rfl rfl).2]
      | rw [(ycbcr2rgb_gray bt2020 _ _ rfl rfl).1]
      | rw [(ycbcr2rgb_gray bt2020 _ _ rfl rfl).2]

theorem c10_gray_axis_witness :
    (yuv_u8_to_argb_u16 ⟨0, 0, 0, 0⟩ ⟨0x80, 128, 128⟩ 0 1).r =
      (yuv_u8_to_argb_u16 ⟨0, 0, 0, 0⟩ ⟨0x80, 128, 128⟩ 0 1).g :=
  (c10_gray_axis 0 1 0x80 (by decide) (by decide) ⟨0, 0, 0, 0⟩).1

/-- C6: for every supported (encoding, range) pair and every input byte
triple, each output color channel equals the fixed-point matrix result
clamped to [0, 0xffff], and in particular never exceeds 0xffff. -/
theorem c6_clamped_matrix (e rng y u v : Nat) (he : e < 3) (hy : y < 256)
    (hu : u < 256) (hv : v < 256) (prev : pixel_argb_u16) :
    ((yuv_u8_to_argb_u16 prev ⟨y, u, v⟩ e rng).r =
        (clampI (ycbcr2rgb (ycbcr_matrix e rng) y u v
          (if rng = 1 then 0 else 16)).r 0 0xffff).toNat ∧
      (yuv_u8_to_argb_u16 prev ⟨y, u, v⟩ e rng).g =
        (clampI (ycbcr2rgb (ycbcr_matrix e rng) y u v
          (if rng = 1 then 0 else 16)).g 0 0xffff).toNat ∧
      (yuv_u8_to_argb_u16 prev ⟨y, u, v⟩ e rng).b =
        (clampI (ycbcr2rgb (ycbcr_matrix e rng) y u v
          (if rng = 1 then 0 else 16)).b 0 0xffff).toNat) ∧
    ((yuv_u8_to_argb_u16 prev ⟨y, u, v⟩ e rng).r ≤ 0xffff ∧
      (yuv_u8_to_argb_u16 prev ⟨y, u, v⟩ e rng).g ≤ 0xffff ∧
      (yuv_u8_to_argb_u16 prev ⟨y, u, v⟩ e rng).b ≤ 0xffff) := by
  interval_cases e <;> by_cases h : rng = 1 <;>
    simp only [yuv_u8_to_argb_u16, ycbcr_matrix, h, if_true, if_false, reduceIte] <;>
    exact ⟨⟨store16_clampI _, store16_clampI _, store16_clampI _⟩,
      store16_clampI_le _, store16_clampI_le _, store16_clampI_le _⟩

theorem c6_clamped_matrix_witness :
    (yuv_u8_to_argb_u16 ⟨0, 0, 0, 0⟩ ⟨255, 128, 128⟩ 0 1).r =
      (clampI (ycbcr2rgb (ycbcr_matrix 0 1) 255 128 128
        (if (1 : Nat) = 1 then 0 else 16)).r 0 0xffff).toNat :=
  (c6_clamped_matrix 0 1 255 128 128 (by decide) (by decide) (by decide)
    (by decide) ⟨0, 0, 0, 0⟩).1.1

theorem rt565_rb : ∀ f : Nat, f < 32 →
    store16 (drm_fixp2int (drm_fixp_div
        (drm_int2fixp (store16 (drm_fixp2int_round (drm_fixp_mul (drm_int2fixp f)
          (drm_fixp_div (drm_int2fixp 65535) (drm_int2fixp 31))))))
        (drm_fixp_div (drm_int2fixp 65535) (drm_int2fixp 31)))) = f ∨
      store16 (drm_fixp2int (drm_fixp_div
        (drm_int2fixp (store16 (drm_fixp2int_round (drm_fixp_mul (drm_int2fixp f)
          (drm_fixp_div (drm_int2fixp 65535) (drm_int2fixp 31))))))
        (drm_fixp_div (drm_int2fixp 65535) (drm_int2fixp 31)))) + 1 = f := by
  decide

theorem rt565_g : ∀ f : Nat, f < 64 →
    store16 (drm_fixp2int (drm_fixp_div
        (drm_int2fixp (store16 (drm_fixp2int_round (drm_fixp_mul (drm_int2fixp f)
          (drm_fixp_div (drm_int2fixp 65535) (drm_int2fixp 63))))))
        (drm_fixp_div (drm_int2fixp 65535) (drm_int2fixp 63)))) = f ∨
      store16 (drm_fixp2int (drm_fixp_div
        (drm_int2fixp (store16 (drm_fixp2int_round (drm_fixp_mul (drm_int2fixp f)
          (drm_fixp_div (drm_int2fixp 65535) (drm_int2fixp 63))))))
        (drm_fixp_div (drm_int2fixp 65535) (drm_int2fixp 63)))) + 1 = f := by
  decide

theorem lor565 : ∀ a, a < 32 → ∀ b, b < 64 → ∀ c, c < 32 →
    (a <<< 11 ||| b <<< 5 ||| c) = a * 2048 + b * 32 + c := by
  decide

/-- C4 (amended): ARGB8888 round-trips exactly in both directions; for
XRGB8888 the three color bytes round-trip while the X byte is rewritten to
0xff (and re-decoding forces alpha to 0xffff); for RGB565 re-encoding the
decode of a 5-6-5 word reproduces each field only up to a possible
decrement by one (the decoder rounds to nearest but the encoder truncates,
so fields whose scaling rounded down come back one smaller). -/
theorem c4_roundtrip (b0 b1 b2 b3 ca cr cg cb s0 s1 e rng : Nat)
    (prev : pixel_argb_u16)
    (h0 : b0 < 256) (h1 : b1 < 256) (h2 : b2 < 256) (h3 : b3 < 256)
    (hca : ca < 256) (hcr : cr < 256) (hcg : cg < 256) (hcb : cb < 256)
    (hs0 : s0 < 256) (hs1 : s1 < 256) :
    argb_u16_to_ARGB8888 (ARGB8888_to_argb_u16 b0 b1 b2 b3 e rng prev) =
      (b0, b1, b2, b3) ∧
    ARGB8888_to_argb_u16
        (argb_u16_to_ARGB8888 ⟨ca * 257, cr * 257, cg * 257, cb * 257⟩).1
        (argb_u16_to_ARGB8888 ⟨ca * 257, cr * 257, cg * 257, cb * 257⟩).2.1
        (argb_u16_to_ARGB8888 ⟨ca * 257, cr * 257, cg * 257, cb * 257⟩).2.2.1
        (argb_u16_to_ARGB8888 ⟨ca * 257, cr * 257, cg * 257, cb * 257⟩).2.2.2
        e rng prev = ⟨ca * 257, cr * 257, cg * 257, cb * 257⟩ ∧
    argb_u16_to_XRGB8888 (XRGB8888_to_argb_u16 b0 b1 b2 b3 e rng prev) =
      (b0, b1, b2, 0xff) ∧
    XRGB8888_to_argb_u16
        (argb_u16_to_XRGB8888 ⟨ca * 257, cr * 257, cg * 257, cb * 257⟩).1
        (argb_u16_to_XRGB8888 ⟨ca * 257, cr * 257, cg * 257, cb * 257⟩).2.1
        (argb_u16_to_XRGB8888 ⟨ca * 257, cr * 257, cg * 257, cb * 257⟩).2.2.1
        (argb_u16_to_XRGB8888 ⟨ca * 257, cr * 257, cg * 257, cb * 257⟩).2.2.2
        e rng prev = ⟨0xffff, cr * 257, cg * 257, cb * 257⟩ ∧
    (((argb_u16_to_RGB565 (RGB565_to_argb_u16 s0 s1 e rng prev)).1 +
        256 * (argb_u16_to_RGB565 (RGB565_to_argb_u16 s0 s1 e rng prev)).2) / 2048 =
          ((s0 + 256 * s1) >>> 11) &&& 0x1f ∨
      ((argb_u16_to_RGB565 (RGB565_to_argb_u16 s0 s1 e rng prev)).1 +
        256 * (argb_u16_to_RGB565 (RGB565_to_argb_u16 s0 s1 e rng prev)).2) / 2048 + 1 =
          ((s0 + 256 * s1) >>> 11) &&& 0x1f) ∧
    (((argb_u16_to_RGB565 (RGB565_to_argb_u16 s0 s1 e rng prev)).1 +
        256 * (argb_u16_to_RGB565 (RGB565_to_argb_u16 s0 s1 e rng prev)).2) / 32 % 64 =
          ((s0 + 256 * s1) >>> 5) &&& 0x3f ∨
      ((argb_u16_to_RGB565 (RGB565_to_argb_u16 s0 s1 e rng prev)).1 +
        256 * (argb_u16_to_RGB565 (RGB565_to_argb_u16 s0 s1 e rng prev)).2) / 32 % 64 + 1 =
          ((s0 + 256 * s1) >>> 5) &&& 0x3f) ∧
    (((argb_u16_to_RGB565 (RGB565_to_argb_u16 s0 s1 e rng prev)).1 +
        256 * (argb_u16_to_RGB565 (RGB565_to_argb_u16 s0 s1 e rng prev)).2) % 32 =
          (s0 + 256 * s1) &&& 0x1f ∨
      ((argb_u16_to_RGB565 (RGB565_to_argb_u16 s0 s1 e rng prev)).1 +
        256 * (argb_u16_to_RGB565 (RGB565_to_argb_u16 s0 s1 e rng prev)).2) % 32 + 1 =
          (s0 + 256 * s1) &&& 0x1f) := by
  refine ⟨?_, ?_, ?_, ?_, ?_⟩
  · simp only [ARGB8888_to_argb_u16, argb_u16_to_ARGB8888, div_round_closest,
      Prod.mk.injEq]
    omega
  · simp only [ARGB8888_to_argb_u16, argb_u16_to_ARGB8888, div_round_closest,
      pixel_argb_u16.mk.injEq]
    omega
  · simp only [XRGB8888_to_argb_u16, argb_u16_to_XRGB8888, div_round_closest,
      Prod.mk.injEq, and_true, true_and]
    omega
  · simp only [XRGB8888_to_argb_u16, argb_u16_to_XRGB8888, div_round_closest,
      pixel_argb_u16.mk.injEq, and_true, true_and]
    omega
  · have hrf : ((s0 + 256 * s1) >>> 11) &&& 0x1f < 32 :=
      Nat.lt_succ_of_le Nat.and_le_right
    have hgf : ((s0 + 256 * s1) >>> 5) &&& 0x3f < 64 :=
      Nat.lt_succ_of_le Nat.and_le_right
    have hbf : (s0 + 256 * s1) &&& 0x1f < 32 :=
      Nat.lt_succ_of_le Nat.and_le_right
    have hr := rt565_rb _ hrf
    have hg := rt565_g _ hgf
    have hb := rt565_rb _ hbf
    simp only [RGB565_to_argb_u16, argb_u16_to_RGB565]
    rw [lor565 _ (by omega) _ (by omega) _ (by omega)]
    · rcases hr with hr | hr <;> rcases hg with hg | hg <;> rcases hb with hb | hb <;>
        omega

/-- C4 counterexample: decoding the XRGB8888 bytes (0,0,0,0) and re-encoding
yields fourth byte 0xff, not the original 0; and re-encoding the decode of
the RGB565 word 0x0800 (bytes 0x00,0x08; red field 1) yields the word 0,
not 0x0800 — so neither round-trip reproduces the original bytes. -/
theorem c4_roundtrip_counterexample :
    (argb_u16_to_XRGB8888 (XRGB8888_to_argb_u16 0 0 0 0 0 0 ⟨0, 0, 0, 0⟩)).2.2.2 ≠ 0 ∧
    ((argb_u16_to_RGB565 (RGB565_to_argb_u16 0 8 0 0 ⟨0, 0, 0, 0⟩)).1 +
      256 * (argb_u16_to_RGB565 (RGB565_to_argb_u16 0 8 0 0 ⟨0, 0, 0, 0⟩)).2) ≠
      0 + 256 * 8 := by
  refine ⟨?_, ?_⟩ <;> decide

theorem c4_roundtrip_witness :
    argb_u16_to_ARGB8888 (ARGB8888_to_argb_u16 5 6 7 8 0 0 ⟨0, 0, 0, 0⟩) =
      (5, 6, 7, 8) :=
  (c4_roundtrip 5 6 7 8 0 0 0 0 0 0 0 0 ⟨0, 0, 0, 0⟩ (by decide) (by decide)
    (by decide) (by decide) (by decide) (by decide) (by decide) (by decide)
    (by decide) (by decide)).1

theorem get_x_position_lt (fi : vkms_frame_info) (limit x : Nat) (hx : x < limit) :
    get_x_position fi limit x < limit := by
  unfold get_x_position
  split <;> omega

theorem get_x_position_inj (fi : vkms_frame_info) (limit a b : Nat)
    (ha : a < limit) (hb : b < limit)
    (h : get_x_position fi limit a = get_x_position fi limit b) : a = b := by
  unfold get_x_position at h
  split at h <;> omega

theorem compose_loop_succ (mem : Int → Nat) (stage : Nat → pixel_argb_u16)
    (plane : vkms_plane_state) (y : Int) (limit k : Nat) :
    compose_loop mem stage plane y limit (k + 1) =
      compose_step mem plane y limit (compose_loop mem stage plane y limit k) k := by
  unfold compose_loop
  rw [List.range_succ, List.foldl_append]
  rfl

theorem compose_loop_untouched (mem : Int → Nat) (stage : Nat → pixel_argb_u16)
    (plane : vkms_plane_state) (y : Int) (limit : Nat) :
    ∀ k p, (∀ x, x < k → get_x_position plane.frame_info limit x ≠ p) →
      (compose_loop mem stage plane y limit k).out p = stage p := by
  intro k
  induction k with
  | zero => intro p _; rfl
  | succ n ih =>
    intro p hp
    rw [compose_loop_succ]
    simp only [compose_step]
    rw [upd_ne _ _ _ _ (Ne.symm (hp n (by omega)))]
    exact ih p (fun x hx => hp x (by omega))

theorem compose_loop_addrs (mem : Int → Nat) (stage : Nat → pixel_argb_u16)
    (plane : vkms_plane_state) (y : Int) (limit : Nat)
    (hNR : drm_rotation_90_or_270 plane.frame_info.rotation = false) :
    ∀ k i, (compose_loop mem stage plane y limit k).src_addrs i =
      get_packed_src_addr plane.frame_info y i +
        (k : Int) * (cpp plane.frame_info.fb.format i : Int) := by
  intro k
  induction k with
  | zero => intro i; simp [compose_loop]
  | succ n ih =>
    intro i
    rw [compose_loop_succ]
    simp only [compose_step, hNR, Bool.false_eq_true, if_false]
    rw [ih i]
    push_cast
    ring

theorem compose_loop_written (mem : Int → Nat) (stage : Nat → pixel_argb_u16)
    (plane : vkms_plane_state) (y : Int) (limit : Nat) :
    ∀ k, k ≤ limit → ∀ x, x < k →
      (compose_loop mem stage plane y limit k).out
          (get_x_position plane.frame_info limit x) =
        pixel_read plane.frame_info.fb.format mem
          (if drm_rotation_90_or_270 plane.frame_info.rotation then
            fun i => get_packed_src_addr plane.frame_info
              ((x : Int) + plane.frame_info.rotated.y1) i +
              (cpp plane.frame_info.fb.format i : Int) * y
          else
            fun i => get_packed_src_addr plane.frame_info y i +
              (x : Int) * (cpp plane.frame_info.fb.format i : Int))
          plane.color_encoding plane.color_range
          (stage (get_x_position plane.frame_info limit x)) := by
  intro k
  induction k with
  | zero => intro _ x hx; omega
  | succ n ih =>
    intro hk x hx
    rw [compose_loop_succ]
    simp only [compose_step]
    by_cases hxn : x = n
    · subst hxn
      rw [upd_self]
      rw [compose_loop_untouched mem stage plane y limit x
        (get_x_position plane.frame_info limit x)
        (fun x' hx' h =>
          absurd (get_x_position_inj plane.frame_info limit x' x
            (by omega) (by omega) h) (by omega))]
      by_cases hrot : drm_rotation_90_or_270 plane.frame_info.rotation = true
      · simp only [hrot, reduceIte]
      · have hNR : drm_rotation_90_or_270 plane.frame_info.rotation = false := by
          revert hrot
          cases drm_rotation_90_or_270 plane.frame_info.rotation <;> simp
        simp only [hNR, Bool.false_eq_true, if_false]
        rw [funext (compose_loop_addrs mem stage plane y limit hNR x)]
    · rw [upd_ne _ _ _ _ (fun h => hxn
        (get_x_position_inj plane.frame_info limit x n (by omega) (by omega) h))]
      exact ih (by omega) x (by omega)

/-- C7: for every staging buffer, plane state and row, vkms_compose_row
leaves every staging index at or beyond min(destination width, staging
capacity) untouched: excess pixels are silently dropped and no write past
the bound occurs, whatever the rotation/reflection flags. -/
theorem c7_staging_bound (mem : Int → Nat) (cap : Nat)
    (stage : Nat → pixel_argb_u16) (plane : vkms_plane_state) (y : Int)
    (hw : 0 ≤ drm_rect_width plane.frame_info.dst)
    (hw64 : drm_rect_width plane.frame_info.dst < 2 ^ 64) :
    ∀ i, min (drm_rect_width plane.frame_info.dst).toNat cap ≤ i →
      vkms_compose_row mem cap stage plane y i = stage i := by
  intro i hi
  have hlim : row_limit plane.frame_info cap =
      min (drm_rect_width plane.frame_info.dst).toNat cap := by
    unfold row_limit
    rw [Int.emod_eq_of_lt hw hw64]
  unfold vkms_compose_row
  refine compose_loop_untouched mem stage plane y _ _ i (fun x hx => ?_)
  have h1 := get_x_position_lt plane.frame_info (row_limit plane.frame_info cap) x hx
  omega

theorem c7_staging_bound_witness :
    vkms_compose_row (fun _ => 0) 4 (fun _ => ⟨1, 2, 3, 4⟩) plane_argb_plain 0 3 =
      ⟨1, 2, 3, 4⟩ :=
  c7_staging_bound (fun _ => 0) 4 (fun _ => ⟨1, 2, 3, 4⟩) plane_argb_plain 0
    (by decide) (by decide) 3 (by decide)

theorem pixel_read_prev_indep (fmt : vkms_format) (mem : Int → Nat)
    (addr : Nat → Int) (e rng : Nat) (p q : pixel_argb_u16) :
    (pixel_read fmt mem addr e rng p).r = (pixel_read fmt mem addr e rng q).r ∧
    (pixel_read fmt mem addr e rng p).g = (pixel_read fmt mem addr e rng q).g ∧
    (pixel_read fmt mem addr e rng p).b = (pixel_read fmt mem addr e rng q).b ∧
    (fmt ≠ .NV12 → pixel_read fmt mem addr e rng p = pixel_read fmt mem addr e rng q) := by
  cases fmt <;>
    first
      | exact ⟨rfl, rfl, rfl, fun _ => rfl⟩
      | exact ⟨rfl, rfl, rfl, fun h => absurd rfl h⟩

/-- C8 (amended): with reflect-X set and rotate-270 clear (rotate-90 may be
set or clear), composing a row writes the same decoded R, G and B values as
composing without the flag, in exactly reversed order over the common
limit; the full pixels are equal for every format except NV12, whose
decoder leaves the alpha channel at whatever the staging buffer held at the
(different) write position.  With rotate-270 set the reversal fails for a
different reason: get_x_position mirrors whenever rotate-270 is set, with
or without reflect-X, so toggling reflect-X does not change the row at all
(see the counterexample). -/
theorem c8_reflect_x_reverses (mem : Int → Nat) (cap : Nat)
    (stage : Nat → pixel_argb_u16) (plane : vkms_plane_state) (y : Int)
    (hrx : plane.frame_info.rotation.reflectX = true)
    (h270 : plane.frame_info.rotation.rot270 = false) :
    ∀ x, x < row_limit plane.frame_info cap →
      ((vkms_compose_row mem cap stage plane y x).r =
          (vkms_compose_row mem cap stage
            { plane with frame_info := { plane.frame_info with rotation :=
              { plane.frame_info.rotation with reflectX := false } } } y
            (row_limit plane.frame_info cap - x - 1)).r ∧
        (vkms_compose_row mem cap stage plane y x).g =
          (vkms_compose_row mem cap stage
            { plane with frame_info := { plane.frame_info with rotation :=
              { plane.frame_info.rotation with reflectX := false } } } y
            (row_limit plane.frame_info cap - x - 1)).g ∧
        (vkms_compose_row mem cap stage plane y x).b =
          (vkms_compose_row mem cap stage
            { plane with frame_info := { plane.frame_info with rotation :=
              { plane.frame_info.rotation with reflectX := false } } } y
            (row_limit plane.frame_info cap - x - 1)).b) ∧
      (plane.frame_info.fb.format ≠ .NV12 →
        vkms_compose_row mem cap stage plane y x =
          vkms_compose_row mem cap stage
            { plane with frame_info := { plane.frame_info with rotation :=
              { plane.frame_info.rotation with reflectX := false } } } y
            (row_limit plane.frame_info cap - x - 1)) := by
  intro x hx
  have hx' : row_limit plane.frame_info cap - x - 1 < row_limit plane.frame_info cap := by
    omega
  have key : ∀ (pl : vkms_plane_state),
      ∀ x0, x0 < row_limit pl.frame_info cap →
      vkms_compose_row mem cap stage pl y
          (get_x_position pl.frame_info (row_limit pl.frame_info cap) x0) =
        pixel_read pl.frame_info.fb.format mem
          (if drm_rotation_90_or_270 pl.frame_info.rotation then
            fun i => get_packed_src_addr pl.frame_info
              ((x0 : Int) + pl.frame_info.rotated.y1) i +
              (cpp pl.frame_info.fb.format i : Int) * y
          else
            fun i => get_packed_src_addr pl.frame_info y i +
              (x0 : Int) * (cpp pl.frame_info.fb.format i : Int))
          pl.color_encoding pl.color_range
          (stage (get_x_position pl.frame_info (row_limit pl.frame_info cap) x0)) :=
    fun pl x0 hx0 =>
      compose_loop_written mem stage pl y (row_limit pl.frame_info cap)
        (row_limit pl.frame_info cap) le_rfl x0 hx0
  have thisA := key plane (row_limit plane.frame_info cap - x - 1) hx'
  have thisB := key
    ({ plane with frame_info := { plane.frame_info with rotation :=
      { plane.frame_info.rotation with reflectX := false } } } : vkms_plane_state)
    (row_limit plane.frame_info cap - x - 1) hx'
  have hposA : get_x_position plane.frame_info (row_limit plane.frame_info cap)
      (row_limit plane.frame_info cap - x - 1) = x := by
    unfold get_x_position
    rw [hrx]
    show row_limit plane.frame_info cap -
      (row_limit plane.frame_info cap - x - 1) - 1 = x
    omega
  have hposB : get_x_position
      ({ plane with frame_info := { plane.frame_info with rotation :=
        { plane.frame_info.rotation with reflectX := false } } } :
        vkms_plane_state).frame_info
      (row_limit ({ plane with frame_info := { plane.frame_info with rotation :=
        { plane.frame_info.rotation with reflectX := false } } } :
        vkms_plane_state).frame_info cap)
      (row_limit plane.frame_info cap - x - 1) =
      row_limit plane.frame_info cap - x - 1 := by
    show (if ((false : Bool) || plane.frame_info.rotation.rot270) = true then
        row_limit plane.frame_info cap -
          (row_limit plane.frame_info cap - x - 1) - 1
      else row_limit plane.frame_info cap - x - 1) =
      row_limit plane.frame_info cap - x - 1
    rw [h270]
    rfl
  rw [hposA] at thisA
  rw [hposB] at thisB
  refine ⟨⟨?_, ?_, ?_⟩, fun hne => ?_⟩
  · rw [thisA, thisB]
    exact (pixel_read_prev_indep _ _ _ _ _ _ _).1
  · rw [thisA, thisB]
    exact (pixel_read_prev_indep _ _ _ _ _ _ _).2.1
  · rw [thisA, thisB]
    exact (pixel_read_prev_indep _ _ _ _ _ _ _).2.2.1
  · rw [thisA, thisB]
    exact (pixel_read_prev_indep _ _ _ _ _ _ _).2.2.2 hne

theorem c8_reflect_x_reverses_witness :
    ((vkms_compose_row mem_bytes 4 (fun i => ⟨i, 0, 0, 0⟩) plane_argb_reflect 0 0).r =
      (vkms_compose_row mem_bytes 4 (fun i => ⟨i, 0, 0, 0⟩)
        { plane_argb_reflect with frame_info :=
          { plane_argb_reflect.frame_info with rotation :=
            { plane_argb_reflect.frame_info.rotation with reflectX := false } } } 0
        (row_limit plane_argb_reflect.frame_info 4 - 0 - 1)).r) ∧
    ((vkms_compose_row mem_bytes 4 (fun i => ⟨i, 0, 0, 0⟩) plane_argb_rot90 0 0).r =
      (vkms_compose_row mem_bytes 4 (fun i => ⟨i, 0, 0, 0⟩)
        { plane_argb_rot90 with frame_info :=
          { plane_argb_rot90.frame_info with rotation :=
            { plane_argb_rot90.frame_info.rotation with reflectX := false } } } 0
        (row_limit plane_argb_rot90.frame_info 4 - 0 - 1)).r) :=
  ⟨((c8_reflect_x_reverses mem_bytes 4 (fun i => ⟨i, 0, 0, 0⟩) plane_argb_reflect 0
      rfl rfl 0 (by decide)).1).1,
    ((c8_reflect_x_reverses mem_bytes 4 (fun i => ⟨i, 0, 0, 0⟩) plane_argb_rot90 0
      rfl rfl 0 (by decide)).1).1⟩

/-- C2 (code bug): in the concrete NV12 frame, the chroma bytes used for
destination pixel x = 1 are the ones at plane-1 offsets 2 and 3 (chroma
sample 1, values 7 and 9), because vkms_compose_row advances every plane's
pointer by its cpp on every iteration; the claim (and spec) require the
sample at floor(1/2) = 0 (offsets 0 and 1, values 1 and 2), and the two
decoded pixels differ. -/
theorem c2_chroma_not_subsampled :
    vkms_compose_row mem_nv12_compose 8 (fun _ => ⟨0, 0, 0, 0⟩)
        plane_nv12_compose 0 1 =
      NV12_to_argb_u16 0 7 9 0 1 ⟨0, 0, 0, 0⟩ ∧
    vkms_compose_row mem_nv12_compose 8 (fun _ => ⟨0, 0, 0, 0⟩)
        plane_nv12_compose 0 1 ≠
      NV12_to_argb_u16 0 1 2 0 1 ⟨0, 0, 0, 0⟩ := by
  refine ⟨?_, ?_⟩ <;> decide

theorem nv12_loop_succ (src : Nat → pixel_argb_u16) (dy duv : Int)
    (m : Int → Nat) (k : Nat) :
    nv12_loop src dy duv m (k + 1) = nv12_step src dy duv (nv12_loop src dy duv m k) k := by
  unfold nv12_loop
  rw [List.range_succ, List.foldl_append]
  rfl

theorem nv12_loop_luma (src : Nat → pixel_argb_u16) (dy duv : Int)
    (m : Int → Nat) (L : Nat)
    (hD : ∀ a b : Nat, a < L → b ≤ L → dy + (a : Int) ≠ duv + (b : Int)) :
    ∀ k, k ≤ L → ∀ x, x < k →
      nv12_loop src dy duv m k (dy + (x : Int)) = (argb_u16_to_yuv_u8 (src x)).y := by
  intro k
  induction k with
  | zero => intro _ x hx; omega
  | succ n ih =>
    intro hk x hx
    rw [nv12_loop_succ]
    simp only [nv12_step]
    rw [upd_ne _ _ _ _ (hD x (n / 2 + n / 2 + 1) (by omega) (by omega))]
    rw [upd_ne _ _ _ _ (hD x (n / 2 + n / 2) (by omega) (by omega))]
    by_cases hxn : x = n
    · subst hxn
      rw [upd_self]
    · rw [upd_ne _ _ _ _ (fun h => hxn (by omega))]
      exact ih (by omega) x (by omega)

theorem nv12_loop_chroma (src : Nat → pixel_argb_u16) (dy duv : Int)
    (m : Int → Nat) (L : Nat)
    (hD : ∀ a b : Nat, a < L → b ≤ L → dy + (a : Int) ≠ duv + (b : Int)) :
    ∀ k, k ≤ L → ∀ j, 2 * j + 1 < k →
      nv12_loop src dy duv m k (duv + ((2 * j : Nat) : Int)) =
        (argb_u16_to_yuv_u8 (src (2 * j + 1))).u ∧
      nv12_loop src dy duv m k (duv + ((2 * j + 1 : Nat) : Int)) =
        (argb_u16_to_yuv_u8 (src (2 * j + 1))).v := by
  intro k
  induction k with
  | zero => intro _ j hj; omega
  | succ n ih =>
    intro hk j hj
    rw [nv12_loop_succ]
    simp only [nv12_step]
    by_cases hjn : 2 * j + 1 = n
    · have e0 : n / 2 + n / 2 = 2 * j := by omega
      have e1 : n / 2 + n / 2 + 1 = 2 * j + 1 := by omega
      rw [e1, e0]
      constructor
      · rw [upd_ne _ _ _ _ (by omega)]
        rw [upd_self, hjn]
      · rw [upd_self, hjn]
    · have hjn' : 2 * j + 1 < n := by omega
      constructor
      · rw [upd_ne _ _ _ _ (by omega)]
        rw [upd_ne _ _ _ _ (by omega)]
        rw [upd_ne _ _ _ _ (Ne.symm (hD n (2 * j) (by omega) (by omega)))]
        exact (ih (by omega) j hjn').1
      · rw [upd_ne _ _ _ _ (by omega)]
        rw [upd_ne _ _ _ _ (by omega)]
        rw [upd_ne _ _ _ _ (Ne.symm (hD n (2 * j + 1) (by omega) (by omega)))]
        exact (ih (by omega) j hjn').2

/-- C3 (amended): the NV12 encoder writes luma at full resolution (the luma
byte at every x of the row is the one computed from source pixel x), and
stores exactly one chroma pair per 2-pixel block; but because every pixel
of the block writes the pair, the value that remains for each complete
block is the one computed from the block's second (odd-x) pixel, not the
first/top-left one the claim states. -/
theorem c3_nv12_encoder (fi : vkms_frame_info) (src : Nat → pixel_argb_u16)
    (cap : Nat) (y : Int) (m : Int → Nat)
    (hD : ∀ a b : Nat, a < row_limit fi cap → b ≤ row_limit fi cap →
      packed_pixels_addr fi fi.dst.x1 y 0 + (a : Int) ≠
        packed_pixels_addr fi fi.dst.x1 (y.tdiv 2) 1 + (b : Int)) :
    (∀ x, x < row_limit fi cap →
      argb_u16_to_NV12 fi src cap y m
          (packed_pixels_addr fi fi.dst.x1 y 0 + (x : Int)) =
        (argb_u16_to_yuv_u8 (src x)).y) ∧
    (∀ j, 2 * j + 1 < row_limit fi cap →
      argb_u16_to_NV12 fi src cap y m
          (packed_pixels_addr fi fi.dst.x1 (y.tdiv 2) 1 + ((2 * j : Nat) : Int)) =
        (argb_u16_to_yuv_u8 (src (2 * j + 1))).u ∧
      argb_u16_to_NV12 fi src cap y m
          (packed_pixels_addr fi fi.dst.x1 (y.tdiv 2) 1 + ((2 * j + 1 : Nat) : Int)) =
        (argb_u16_to_yuv_u8 (src (2 * j + 1))).v) := by
  refine ⟨fun x hx => ?_, fun j hj => ?_⟩
  · exact nv12_loop_luma src _ _ m (row_limit fi cap) hD (row_limit fi cap) le_rfl x hx
  · exact nv12_loop_chroma src _ _ m (row_limit fi cap) hD (row_limit fi cap) le_rfl j hj

/-- C3 counterexample: writing the two-pixel row (red, blue) to the NV12
fixture stores, as the chroma pair of block 0, the one computed from pixel
1 (blue, the odd/second pixel), which differs from the chroma of pixel 0
(red, the top-left pixel the claim names). -/
theorem c3_chroma_from_odd_pixel :
    argb_u16_to_NV12 fi_nv12_write src_two_pixels 8 0 (fun _ => 0) 1000 =
      (argb_u16_to_yuv_u8 (src_two_pixels 1)).u ∧
    (argb_u16_to_yuv_u8 (src_two_pixels 1)).u ≠
      (argb_u16_to_yuv_u8 (src_two_pixels 0)).u := by
  refine ⟨?_, ?_⟩ <;> decide

theorem c3_nv12_encoder_witness :
    argb_u16_to_NV12 fi_nv12_write src_two_pixels 8 0 (fun _ => 0)
        (packed_pixels_addr fi_nv12_write fi_nv12_write.dst.x1 0 0 + ((0 : Nat) : Int)) =
      (argb_u16_to_yuv_u8 (src_two_pixels 0)).y :=
  (c3_nv12_encoder fi_nv12_write src_two_pixels 8 0 (fun _ => 0)
    (fun a b ha hb => by
      have h1 : packed_pixels_addr fi_nv12_write fi_nv12_write.dst.x1 0 0 = 0 := by
        decide
      have h2 : packed_pixels_addr fi_nv12_write fi_nv12_write.dst.x1
          ((0 : Int).tdiv 2) 1 = 1000 := by decide
      have h3 : row_limit fi_nv12_write 8 = 2 := by decide
      rw [h1, h2]
      rw [h3] at ha hb
      omega)).1 0 (by decide)


/-- C8 counterexample: two failures of the claim as stated.  First, over
the NV12 reflect fixture with a staging buffer whose slot i holds alpha i,
the pixel composed with reflect-X at position 0 differs from the pixel
composed without the flag at position limit-1 = 1: the NV12 decoder leaves
alpha at the staging slot's prior value, and the two runs write the same
source pixel into slots with different prior alphas.  Second, with
rotate-270 set, toggling reflect-X changes nothing (get_x_position mirrors
whenever rotate-270 is set, with or without reflect-X), so both runs
produce the same row and position 0 of one run is not the reverse
(position 1) of the other. -/
theorem c8_reflect_counterexample :
    (vkms_compose_row mem_nv12_compose 8 (fun i => ⟨i, 0, 0, 0⟩)
        plane_nv12_reflect 0 0 ≠
      vkms_compose_row mem_nv12_compose 8 (fun i => ⟨i, 0, 0, 0⟩)
        { plane_nv12_reflect with frame_info :=
          { fi_nv12_reflect with rotation :=
            ⟨false, false, false, false, false⟩ } } 0 1) ∧
    (vkms_compose_row mem_bytes 4 (fun _ => ⟨0, 0, 0, 0⟩)
        plane_argb_rot270 0 0 ≠
      vkms_compose_row mem_bytes 4 (fun _ => ⟨0, 0, 0, 0⟩)
        { plane_argb_rot270 with frame_info :=
          { fi_argb_rot270 with rotation :=
            ⟨false, false, true, false, false⟩ } } 0 1) := by
  refine ⟨?_, ?_⟩ <;> decide
